import Mathlib

/-!
# Verification of the KoreanTama sprite-sheet tool set

Shallow embedding of the job-polling driver (`generate.py`), the image
transform utilities (`resize_image_to_match`, `resize_with_padding`), the
sprite-sheet composer (`create_spritesheet.py`) and the artifact downloader
(`download_outputs`), together with proofs of the specification's claims.

Images are modelled by their observable metadata (mode, dimensions) plus a
trace of paste operations (position and size of every pasted sub-image);
pixel contents are not needed by any claim.  Python floats in the letterbox
scale computation are modelled as exact rationals.  The external job service
is modelled as an oracle `Nat → Job` giving the result of the i-th status
retrieval, and the download service as an oracle from variant names to
either the downloaded bytes or the message of the raised exception.
-/

/-! ## Definitions: job polling (`generate.py`, `wait_for_completion`) -/

/-- A job record as returned by `client.videos.retrieve`: a status string,
an optional progress percentage, and an optional error message. -/
structure Job where
  status : String
  progress : Option Nat
  error : Option String
deriving Repr, DecidableEq

/-- The message of the `RuntimeError` raised on a `failed` status
(`generate.py` line 212); Python renders an absent error object as the
string `"None"`. -/
def failureMessage (e : Option String) : String :=
  "Video generation failed: " ++ (match e with | some m => m | none => "None")

/-- The message of the `RuntimeError` raised when the poll loop exits
(`generate.py` line 217): the interpolated values are the `timeout`
parameter and the video id. -/
def timeoutMessage (timeout : Nat) (video_id : String) : String :=
  "Timed out after " ++ toString timeout ++ "s waiting for video " ++ video_id

/-- Observable outcome of `wait_for_completion`: the returned job (with the
index of the check that returned it), or the raised failure / timeout
message.  Each outcome also records the trace of `time.sleep` calls made
(one entry per sleep, holding its duration), and the timeout outcome records
the final value of the `elapsed` counter. -/
inductive PollOutcome where
  | completed (job : Job) (checkIndex : Nat) (sleeps : List Nat)
  | failed (msg : String) (checkIndex : Nat) (sleeps : List Nat)
  | timedOut (msg : String) (elapsed : Nat) (sleeps : List Nat)
deriving Repr, DecidableEq

/-- The body of `wait_for_completion`'s `while elapsed < timeout` loop.
`retrieve i` is the job record returned by the (i+1)-th
`client.videos.retrieve` call; `sleeps` accumulates the sleep trace.
The loop needs `0 < poll_interval` to terminate (Python would spin forever
on a zero interval). -/
def waitLoop (retrieve : Nat → Job) (video_id : String)
    (poll_interval timeout : Nat) (hp : 0 < poll_interval)
    (elapsed i : Nat) (sleeps : List Nat) : PollOutcome :=
  if _h : elapsed < timeout then
    if (retrieve i).status = "completed" then
      .completed (retrieve i) i sleeps
    else if (retrieve i).status = "failed" then
      .failed (failureMessage (retrieve i).error) i sleeps
    else
      waitLoop retrieve video_id poll_interval timeout hp
        (elapsed + poll_interval) (i + 1) (sleeps ++ [poll_interval])
  else
    .timedOut (timeoutMessage timeout video_id) elapsed sleeps
termination_by timeout - elapsed
decreasing_by omega

/-- `wait_for_completion(client, video_id, poll_interval, timeout)`:
poll until the video job completes or fails, starting from `elapsed = 0`.
The source's defaults are `poll_interval = 10`, `timeout = 600`. -/
def wait_for_completion (retrieve : Nat → Job) (video_id : String)
    (poll_interval timeout : Nat) (hp : 0 < poll_interval) : PollOutcome :=
  waitLoop retrieve video_id poll_interval timeout hp 0 0 []

/-- A concrete status sequence: queued on the first check, running on the
second, completed from the third on. -/
def retrieveQRC : Nat → Job := fun i =>
  if i = 0 then ⟨"queued", some 0, none⟩
  else if i = 1 then ⟨"running", some 50, none⟩
  else ⟨"completed", some 100, none⟩

/-- A job that never leaves the `running` status. -/
def retrieveStuck : Nat → Job := fun _ => ⟨"running", some 10, none⟩

/-- A job stuck in the status `"canceled"`, which the poll loop does not
recognize as terminal. -/
def retrieveCanceled : Nat → Job := fun _ => ⟨"canceled", none, none⟩

/-! ## Definitions: PIL image model -/

/-- An RGB color triple, as used for background fills. -/
abbrev Color := ℕ × ℕ × ℕ

/-- A PIL image, modelled by its observable metadata: mode string and pixel
dimensions, plus a trace of the paste operations applied to it.  Each trace
entry records `(x, y, w, h)`: the position handed to `paste` and the size of
the pasted sub-image.  Pixel contents are outside the model (no claim
mentions them). -/
structure PILImage where
  mode : String
  width : Nat
  height : Nat
  pastes : List (Nat × Nat × Nat × Nat)
deriving Repr, DecidableEq

/-- `Image.new(mode, (w, h), fill)`: a fresh image of the given mode and
size (the fill color has no observable in this model). -/
def imageNew (mode : String) (w h : Nat) (_fill : Color) : PILImage :=
  ⟨mode, w, h, []⟩

/-- `img.resize((w, h), resample)`: a fresh image of the same mode with the
requested size; the resampling filter has no observable in this model. -/
def PILImage.resize (img : PILImage) (w h : Nat) : PILImage :=
  ⟨img.mode, w, h, []⟩

/-- `base.paste(img, (x, y), mask)`: dimensions and mode of `base` are
unchanged; the operation is recorded in the trace. -/
def PILImage.paste (base img : PILImage) (pos : Nat × Nat) : PILImage :=
  { base with pastes := base.pastes ++ [(pos.1, pos.2, img.width, img.height)] }

/-- `img.convert(mode)`: same dimensions, new mode. -/
def PILImage.convert (img : PILImage) (mode : String) : PILImage :=
  { img with mode := mode }

/-- Whether a PIL mode string carries an alpha channel (`RGBA`, `LA`, `PA`
and the premultiplied variants). -/
def hasAlpha (mode : String) : Bool :=
  mode = "RGBA" || mode = "LA" || mode = "PA" || mode = "RGBa" || mode = "La"

/-! ## Definitions: `create_spritesheet.py` -/

/-- `FRAME_SIZE = 128`. -/
def FRAME_SIZE : Nat := 128

/-- `BACKGROUND_COLOR = (255, 255, 255)`. -/
def BACKGROUND_COLOR : Color := (255, 255, 255)

/-- `scale = min(target_size / img_width, target_size / img_height)` from
`resize_with_padding`, with Python float division modelled as exact rational
division. -/
def letterbox_scale (img_width img_height target_size : Nat) : ℚ :=
  min ((target_size : ℚ) / (img_width : ℚ)) ((target_size : ℚ) / (img_height : ℚ))

/-- `new_width = int(img_width * scale)`; the value is nonnegative, so
Python's truncation toward zero is the floor. -/
def letterbox_new_width (img_width img_height target_size : Nat) : Nat :=
  (⌊(img_width : ℚ) * letterbox_scale img_width img_height target_size⌋).toNat

/-- `new_height = int(img_height * scale)`. -/
def letterbox_new_height (img_width img_height target_size : Nat) : Nat :=
  (⌊(img_height : ℚ) * letterbox_scale img_width img_height target_size⌋).toNat

/-- `resize_with_padding(image, target_size, bg_color)`: resize to fit
within a `target_size` square preserving aspect ratio, then center on a
square RGBA background. -/
def resize_with_padding (image : PILImage) (target_size : Nat) (bg_color : Color) :
    PILImage :=
  let new_width := letterbox_new_width image.width image.height target_size
  let new_height := letterbox_new_height image.width image.height target_size
  let resized := image.resize new_width new_height
  let bg := imageNew "RGBA" target_size target_size bg_color
  let x_offset := (target_size - new_width) / 2
  let y_offset := (target_size - new_height) / 2
  bg.paste resized (x_offset, y_offset)

/-- Per-frame processing in the composer's paste loop: letterbox resize for
the `hatching` animation, plain resize to the cell size otherwise, then
flatten `RGBA` onto a white cell-sized background and convert any remaining
non-`RGB` mode. -/
def processFrame (folder_name : String) (frame : PILImage) : PILImage :=
  let frame_resized :=
    if folder_name = "hatching" then
      resize_with_padding frame FRAME_SIZE BACKGROUND_COLOR
    else
      frame.resize FRAME_SIZE FRAME_SIZE
  if frame_resized.mode = "RGBA" then
    (imageNew "RGB" FRAME_SIZE FRAME_SIZE BACKGROUND_COLOR).paste frame_resized (0, 0)
  else if frame_resized.mode ≠ "RGB" then
    frame_resized.convert "RGB"
  else
    frame_resized

/-- `max_frames`: the running maximum of the per-folder frame counts,
starting from 0. -/
def max_frames (animation_folders : List (String × List PILImage)) : Nat :=
  (animation_folders.map (fun f => f.2.length)).foldl Nat.max 0

/-- Body of the composer's inner `for col, frame_path in enumerate(frames)`
loop: paste the processed frame at `(col * FRAME_SIZE, row * FRAME_SIZE)`. -/
def pasteFrame (row : Nat) (folder_name : String) (sheet : PILImage)
    (colFrame : Nat × PILImage) : PILImage :=
  sheet.paste (processFrame folder_name colFrame.2)
    (colFrame.1 * FRAME_SIZE, row * FRAME_SIZE)

/-- Body of the composer's outer `for row, folder in enumerate(...)` loop. -/
def pasteRow (sheet : PILImage) (rowFolder : Nat × String × List PILImage) :
    PILImage :=
  (rowFolder.2.2.enum).foldl (pasteFrame rowFolder.1 rowFolder.2.1) sheet

/-- `main()` of `create_spritesheet.py`, with the filesystem abstracted:
`animation_folders` is the sorted list of folder names with their ordered
frame lists.  An `error` result models the early `return` (nothing composed,
no file written) with the printed message; an `ok` result is the sheet that
is saved to `output/spritesheet.png`. -/
def composeSpritesheet (animation_folders : List (String × List PILImage)) :
    Except String PILImage :=
  if animation_folders = [] then
    Except.error "No animation folders found in output/sprite_frames"
  else if max_frames animation_folders = 0 then
    Except.error "No frames found in any animation folder"
  else
    Except.ok ((animation_folders.enum).foldl pasteRow
      (imageNew "RGB" (FRAME_SIZE * max_frames animation_folders)
        (FRAME_SIZE * animation_folders.length) BACKGROUND_COLOR))

/-- A concrete non-empty input for the composer. -/
def sampleFolders : List (String × List PILImage) :=
  [("idle", [⟨"RGB", 64, 64, []⟩, ⟨"RGBA", 64, 64, []⟩]),
   ("walk", [⟨"RGB", 32, 48, []⟩])]

/-! ## Definitions: `resize_image_to_match` (`generate.py`) -/

/-- `str.split(sep)` for a one-character separator, implemented over the
string's character list (structurally, so that concrete instances
compute). -/
def splitOnChar (c : Char) : List Char → List (List Char)
  | [] => [[]]
  | a :: rest =>
    if a = c then [] :: splitOnChar c rest
    else
      match splitOnChar c rest with
      | [] => [[a]]
      | g :: gs => (a :: g) :: gs

/-- Python `int(...)` on the digit strings that occur in size values:
`none` models the `ValueError` raised on an empty or non-digit string. -/
def parseNatChars (l : List Char) : Option Nat :=
  if l = [] then none
  else
    l.foldl
      (fun acc c =>
        match acc with
        | none => none
        | some n => if c.isDigit then some (10 * n + (c.toNat - 48)) else none)
      (some 0)

/-- `width, height = map(int, target_size.split("x"))`; `none` models the
`ValueError` Python raises on a malformed size string. -/
def parse_size (s : String) : Option (Nat × Nat) :=
  match (splitOnChar 'x' s.toList).map parseNatChars with
  | [some w, some h] => some (w, h)
  | _ => none

/-- `resize_image_to_match(image_path, target_size)`: nearest-neighbor
resize to the exact target resolution, then composite onto an opaque white
`RGB` background when (and only when) the resized image's mode is `RGBA`.
The returned image is the one encoded to PNG bytes. -/
def resize_image_to_match (img : PILImage) (target_size : String) :
    Option PILImage :=
  match parse_size target_size with
  | none => none
  | some (width, height) =>
    let img_resized := img.resize width height
    if img_resized.mode = "RGBA" then
      some ((imageNew "RGB" width height (255, 255, 255)).paste img_resized (0, 0))
    else
      some img_resized

/-! ## Definitions: artifact downloader (`generate.py`, `download_outputs`) -/

/-- Downloaded content, abstracted to a byte list. -/
abbrev Bytes := List Nat

/-- `OUTPUT_DIR = "output"`. -/
def OUTPUT_DIR : String := "output"

/-- The `variants` dict of `download_outputs`, in insertion order:
spritesheet, thumbnail, video, each mapped to its output path. -/
def variantsMap (base : String) : List (String × String) :=
  [("spritesheet", base ++ "_spritesheet.png"),
   ("thumbnail", base ++ "_thumbnail.png"),
   ("video", base ++ ".mp4")]

/-- Observable effects of one `download_outputs` call: the files written to
disk (path and bytes, in order), the variants skipped because their download
raised, and the function's return value. -/
structure DownloadRun where
  written : List (String × Bytes)
  skipped : List String
  returned : List (String × String)
deriving Repr, DecidableEq

/-- `download_outputs(client, video_id, prompt_name)`: for each variant in
order, request its content and write it to its path; an exception from any
one variant is caught, the variant is skipped, and the loop continues.  The
function returns the `variants` mapping itself. -/
def download_outputs (download : String → Except String Bytes)
    (video_id prompt_name : String) : DownloadRun :=
  let base := OUTPUT_DIR ++ "/" ++ prompt_name ++ "_" ++ video_id
  let variants := variantsMap base
  let fs := variants.foldl
    (fun acc vf =>
      match download vf.1 with
      | Except.ok data => (acc.1 ++ [(vf.2, data)], acc.2)
      | Except.error _ => (acc.1, acc.2 ++ [vf.1]))
    (([], []) : List (String × Bytes) × List String)
  { written := fs.1, skipped := fs.2, returned := variants }

/-- A download service on which the `video` variant is absent and the other
two variants succeed. -/
def dlVideoAbsent : String → Except String Bytes :=
  fun v => if v = "video" then Except.error "video not generated" else Except.ok [7]

/-- A download service on which every variant succeeds. -/
def dlAllOk : String → Except String Bytes := fun _ => Except.ok [7]

/-! ## Theorems: polling (claims C1, C2, C10) -/

/-- C1: a poll whose first three retrieved statuses are `queued`, `running`,
`completed` returns the third check's job record, having slept exactly twice
with duration `poll_interval` (provided the timeout bound allows a third
check, which the defaults `poll_interval = 10`, `timeout = 600` do). -/
theorem wait_for_completion_three_checks (retrieve : Nat → Job) (v : String)
    (p t : Nat) (hp : 0 < p) (ht : 2 * p < t)
    (h0 : (retrieve 0).status = "queued")
    (h1 : (retrieve 1).status = "running")
    (h2 : (retrieve 2).status = "completed") :
    wait_for_completion retrieve v p t hp =
      PollOutcome.completed (retrieve 2) 2 [p, p] := by
  unfold wait_for_completion
  rw [waitLoop.eq_def]
  rw [dif_pos (show 0 < t by omega)]
  rw [if_neg (by rw [h0]; decide), if_neg (by rw [h0]; decide)]
  rw [waitLoop.eq_def]
  rw [dif_pos (show 0 + p < t by omega)]
  rw [if_neg (by rw [h1]; decide), if_neg (by rw [h1]; decide)]
  rw [waitLoop.eq_def]
  rw [dif_pos (show 0 + p + p < t by omega)]
  rw [if_pos (by rw [h2])]
  simp

/-- Witness for C1 at a concrete status sequence and the default
`poll_interval = 10`, `timeout = 600`. -/
theorem wait_for_completion_three_checks_witness :
    wait_for_completion retrieveQRC "video_123" 10 600 (by decide) =
      PollOutcome.completed ⟨"completed", some 100, none⟩ 2 [10, 10] := by
  have h := wait_for_completion_three_checks retrieveQRC "video_123" 10 600
    (by decide) (by decide) rfl rfl rfl
  simpa [retrieveQRC] using h

/-- If no retrieved status is ever terminal, the loop runs to the timeout:
it returns the timeout outcome whose message is built from the `timeout`
parameter, with a final `elapsed` counter `e` satisfying `t ≤ e < t + p`
and equal to the total time slept. -/
theorem waitLoop_nonterminal (retrieve : Nat → Job) (v : String) (p t : Nat)
    (hp : 0 < p)
    (hnt : ∀ i, (retrieve i).status ≠ "completed" ∧ (retrieve i).status ≠ "failed")
    (elapsed i : Nat) (sleeps : List Nat)
    (hb : elapsed < t + p) (hs : elapsed = sleeps.sum) :
    ∃ e s, waitLoop retrieve v p t hp elapsed i sleeps =
        PollOutcome.timedOut (timeoutMessage t v) e s ∧
      t ≤ e ∧ e < t + p ∧ e = s.sum := by
  rw [waitLoop.eq_def]
  by_cases h : elapsed < t
  · rw [dif_pos h, if_neg (hnt i).1, if_neg (hnt i).2]
    exact waitLoop_nonterminal retrieve v p t hp hnt
      (elapsed + p) (i + 1) (sleeps ++ [p]) (by omega) (by simp [hs])
  · rw [dif_neg h]
    exact ⟨elapsed, sleeps, rfl, by omega, hb, hs⟩
termination_by t - elapsed
decreasing_by omega

/-- C2 (amended): if no retrieved status is ever `completed` or `failed`,
`wait_for_completion` raises a timeout error whose message names the job id
and the configured `timeout` bound (not the actual cumulative elapsed time);
the actual elapsed counter `e` at which polling stops equals the total time
slept and satisfies `timeout ≤ e < timeout + poll_interval`, so it coincides
with the reported value only when `poll_interval` divides `timeout`. -/
theorem wait_for_completion_timeout (retrieve : Nat → Job) (v : String)
    (p t : Nat) (hp : 0 < p)
    (hnt : ∀ i, (retrieve i).status ≠ "completed" ∧ (retrieve i).status ≠ "failed") :
    ∃ e s, wait_for_completion retrieve v p t hp =
        PollOutcome.timedOut (timeoutMessage t v) e s ∧
      t ≤ e ∧ e < t + p ∧ e = s.sum :=
  waitLoop_nonterminal retrieve v p t hp hnt 0 0 [] (by omega) rfl

/-- Witness for the amended C2 at a concrete stuck job with the default
`poll_interval = 10`, `timeout = 600`. -/
theorem wait_for_completion_timeout_witness :
    ∃ e s, wait_for_completion retrieveStuck "video_9" 10 600 (by decide) =
        PollOutcome.timedOut (timeoutMessage 600 "video_9") e s ∧
      600 ≤ e ∧ e < 610 ∧ e = s.sum :=
  wait_for_completion_timeout retrieveStuck "video_9" 10 600 (by decide)
    (fun i => ⟨by simp [retrieveStuck], by simp [retrieveStuck]⟩)

/-- Counterexample to C2 as stated: with `poll_interval = 7` and
`timeout = 10` (not a multiple of 7) the poll loop stops with an actual
cumulative elapsed time of 14 seconds, but the raised message reports the
configured 10-second bound and nowhere mentions 14. -/
theorem wait_for_completion_timeout_counterexample :
    wait_for_completion (fun _ => ⟨"running", none, none⟩) "v" 7 10 (by decide) =
      PollOutcome.timedOut "Timed out after 10s waiting for video v" 14 [7, 7] ∧
    ¬ ("14".toList <:+: ("Timed out after 10s waiting for video v").toList) := by
  constructor
  · rw [wait_for_completion, waitLoop.eq_def]
    rw [dif_pos (by decide : (0:Nat) < 10)]
    rw [if_neg (by decide), if_neg (by decide)]
    rw [waitLoop.eq_def]
    rw [dif_pos (by decide : (0+7:Nat) < 10)]
    rw [if_neg (by decide), if_neg (by decide)]
    rw [waitLoop.eq_def]
    rw [dif_neg (by decide : ¬ (0+7+7:Nat) < 10)]
    rfl
  · decide

/-- The loop returns a job record only when that check's status is exactly
the string `"completed"`. -/
theorem waitLoop_completed (retrieve : Nat → Job) (v : String) (p t : Nat)
    (hp : 0 < p) (elapsed i : Nat) (sleeps : List Nat) (job : Job)
    (j : Nat) (s : List Nat)
    (h : waitLoop retrieve v p t hp elapsed i sleeps =
      PollOutcome.completed job j s) :
    job = retrieve j ∧ job.status = "completed" := by
  rw [waitLoop.eq_def] at h
  by_cases hlt : elapsed < t
  · rw [dif_pos hlt] at h
    by_cases hc : (retrieve i).status = "completed"
    · rw [if_pos hc] at h
      cases h
      exact ⟨rfl, hc⟩
    · rw [if_neg hc] at h
      by_cases hf : (retrieve i).status = "failed"
      · rw [if_pos hf] at h
        cases h
      · rw [if_neg hf] at h
        exact waitLoop_completed retrieve v p t hp
          (elapsed + p) (i + 1) (sleeps ++ [p]) job j s h
  · rw [dif_neg hlt] at h
    cases h
termination_by t - elapsed
decreasing_by omega

/-- The loop raises a job-failure error only when that check's status is
exactly the string `"failed"`. -/
theorem waitLoop_failed (retrieve : Nat → Job) (v : String) (p t : Nat)
    (hp : 0 < p) (elapsed i : Nat) (sleeps : List Nat) (m : String)
    (j : Nat) (s : List Nat)
    (h : waitLoop retrieve v p t hp elapsed i sleeps =
      PollOutcome.failed m j s) :
    (retrieve j).status = "failed" ∧ m = failureMessage (retrieve j).error := by
  rw [waitLoop.eq_def] at h
  by_cases hlt : elapsed < t
  · rw [dif_pos hlt] at h
    by_cases hc : (retrieve i).status = "completed"
    · rw [if_pos hc] at h
      cases h
    · rw [if_neg hc] at h
      by_cases hf : (retrieve i).status = "failed"
      · rw [if_pos hf] at h
        cases h
        exact ⟨hf, rfl⟩
      · rw [if_neg hf] at h
        exact waitLoop_failed retrieve v p t hp
          (elapsed + p) (i + 1) (sleeps ++ [p]) m j s h
  · rw [dif_neg hlt] at h
    cases h
termination_by t - elapsed
decreasing_by omega

/-- C10: `wait_for_completion` returns a job record only when the retrieved
status is exactly `"completed"`; it raises a job-failure error only when the
retrieved status is exactly `"failed"`; and any other status — including an
unrecognized terminal-sounding one such as `"canceled"` — is treated as
non-terminal, so a job stuck in it is polled until the timeout error. -/
theorem wait_for_completion_terminal_classification (retrieve : Nat → Job)
    (v : String) (p t : Nat) (hp : 0 < p) :
    (∀ job j s, wait_for_completion retrieve v p t hp =
        PollOutcome.completed job j s →
      job = retrieve j ∧ job.status = "completed") ∧
    (∀ m j s, wait_for_completion retrieve v p t hp =
        PollOutcome.failed m j s →
      (retrieve j).status = "failed") ∧
    ((∀ i, (retrieve i).status = "canceled") →
      ∃ e s, wait_for_completion retrieve v p t hp =
        PollOutcome.timedOut (timeoutMessage t v) e s) := by
  refine ⟨fun job j s h => ?_, fun m j s h => ?_, fun hc => ?_⟩
  · exact waitLoop_completed retrieve v p t hp 0 0 [] job j s h
  · exact (waitLoop_failed retrieve v p t hp 0 0 [] m j s h).1
  · obtain ⟨e, s, he, -⟩ := waitLoop_nonterminal retrieve v p t hp
      (fun i => by rw [hc i]; exact ⟨by decide, by decide⟩) 0 0 [] (by omega) rfl
    exact ⟨e, s, he⟩

/-- Witness for C10: a job stuck in the unrecognized status `"canceled"`
times out rather than returning. -/
theorem wait_for_completion_terminal_classification_witness :
    ∃ e s, wait_for_completion retrieveCanceled "v" 7 10 (by decide) =
      PollOutcome.timedOut (timeoutMessage 10 "v") e s :=
  (wait_for_completion_terminal_classification retrieveCanceled "v" 7 10
    (by decide)).2.2 (fun _ => rfl)

/-! ## Theorems: image transforms (claims C5, C6, C7) -/

/-- Scaling a side by `min (t / a) q` and truncating never exceeds `t`. -/
theorem letterbox_floor_le (a t : Nat) (q : ℚ) (ha : 0 < a) :
    (⌊(a : ℚ) * min ((t : ℚ) / (a : ℚ)) q⌋).toNat ≤ t := by
  have ha0 : (0 : ℚ) < (a : ℚ) := by exact_mod_cast ha
  have h1 : (a : ℚ) * min ((t : ℚ) / (a : ℚ)) q ≤ (t : ℚ) := by
    calc (a : ℚ) * min ((t : ℚ) / (a : ℚ)) q
        ≤ (a : ℚ) * ((t : ℚ) / (a : ℚ)) :=
          mul_le_mul_of_nonneg_left (min_le_left _ _) ha0.le
      _ = (t : ℚ) := by field_simp
  have h2 : ⌊(a : ℚ) * min ((t : ℚ) / (a : ℚ)) q⌋ ≤ (t : ℤ) := by
    have h3 := Int.floor_le_floor h1
    simpa using h3
  exact Int.toNat_le.mpr h2

/-- When the scale factor is exactly `t / a`, scaling the side `a` by it and
truncating gives back exactly `t` (the long edge touches the canvas). -/
theorem letterbox_floor_eq (a t : Nat) (q : ℚ) (ha : 0 < a)
    (hq : (t : ℚ) / (a : ℚ) ≤ q) :
    (⌊(a : ℚ) * min ((t : ℚ) / (a : ℚ)) q⌋).toNat = t := by
  have ha0 : (a : ℚ) ≠ 0 := by positivity
  rw [min_eq_left hq]
  have h1 : (a : ℚ) * ((t : ℚ) / (a : ℚ)) = (t : ℚ) := by field_simp
  rw [h1, Int.floor_natCast]
  simp

/-- `t / a` is antitone in the denominator over the naturals in play. -/
theorem letterbox_div_antitone (t b a : Nat) (hb : 0 < b) (hba : b ≤ a) :
    (t : ℚ) / (a : ℚ) ≤ (t : ℚ) / (b : ℚ) := by
  have hb0 : (0 : ℚ) < (b : ℚ) := by exact_mod_cast hb
  have hba0 : (b : ℚ) ≤ (a : ℚ) := by exact_mod_cast hba
  gcongr

/-- C6: for every image with positive dimensions and every target square
size, `resize_with_padding` produces a `target_size × target_size` square;
the scaled content's long edge exactly reaches the canvas edge; the content
is pasted once, at offsets that split each axis's leftover padding evenly
with the larger half at most one pixel bigger. -/
theorem resize_with_padding_letterbox (img : PILImage) (t : Nat) (bg : Color)
    (hw : 0 < img.width) (hh : 0 < img.height) :
    (resize_with_padding img t bg).width = t ∧
    (resize_with_padding img t bg).height = t ∧
    letterbox_new_width img.width img.height t ≤ t ∧
    letterbox_new_height img.width img.height t ≤ t ∧
    (img.height ≤ img.width → letterbox_new_width img.width img.height t = t) ∧
    (img.width ≤ img.height → letterbox_new_height img.width img.height t = t) ∧
    (resize_with_padding img t bg).pastes =
      [((t - letterbox_new_width img.width img.height t) / 2,
        (t - letterbox_new_height img.width img.height t) / 2,
        letterbox_new_width img.width img.height t,
        letterbox_new_height img.width img.height t)] ∧
    (∀ pad : Nat, (pad = t - letterbox_new_width img.width img.height t ∨
        pad = t - letterbox_new_height img.width img.height t) →
      pad / 2 ≤ pad - pad / 2 ∧ pad - pad / 2 ≤ pad / 2 + 1) := by
  refine ⟨rfl, rfl, ?_, ?_, ?_, ?_, rfl, ?_⟩
  · exact letterbox_floor_le img.width t _ hw
  · rw [letterbox_new_height, letterbox_scale, min_comm]
    exact letterbox_floor_le img.height t _ hh
  · intro hle
    rw [letterbox_new_width, letterbox_scale]
    exact letterbox_floor_eq img.width t _ hw
      (letterbox_div_antitone t img.height img.width hh hle)
  · intro hle
    rw [letterbox_new_height, letterbox_scale, min_comm]
    exact letterbox_floor_eq img.height t _ hh
      (letterbox_div_antitone t img.width img.height hw hle)
  · intro pad _
    omega

/-- Witness for C6 at a 200×100 source and the composer's 128-pixel cell. -/
theorem resize_with_padding_letterbox_witness :
    0 < (200 : Nat) ∧ 0 < (100 : Nat) ∧
    (resize_with_padding ⟨"RGB", 200, 100, []⟩ 128 BACKGROUND_COLOR).width = 128 ∧
    (resize_with_padding ⟨"RGB", 200, 100, []⟩ 128 BACKGROUND_COLOR).height = 128 ∧
    letterbox_new_width 200 100 128 = 128 := by
  have h := resize_with_padding_letterbox ⟨"RGB", 200, 100, []⟩ 128
    BACKGROUND_COLOR (by decide) (by decide)
  exact ⟨by decide, by decide, h.1, h.2.1, h.2.2.2.2.1 (by decide)⟩

/-- C5: whenever the target size string parses as `(w, h)` — which every
value of the `--size` choice list does — the image prepared for submission
has dimensions exactly `(w, h)`, regardless of the source's dimensions or
aspect ratio. -/
theorem resize_image_to_match_dimensions (img : PILImage) (ts : String)
    (w h : Nat) (hp : parse_size ts = some (w, h)) :
    ∃ out, resize_image_to_match img ts = some out ∧
      out.width = w ∧ out.height = h := by
  simp only [resize_image_to_match, hp]
  by_cases hm : (img.resize w h).mode = "RGBA"
  · rw [if_pos hm]
    exact ⟨_, rfl, rfl, rfl⟩
  · rw [if_neg hm]
    exact ⟨_, rfl, rfl, rfl⟩

/-- Witness for C5: a 3×5 source resized for the default 1280×720 video. -/
theorem resize_image_to_match_dimensions_witness :
    parse_size "1280x720" = some (1280, 720) ∧
    ∃ out, resize_image_to_match ⟨"RGB", 3, 5, []⟩ "1280x720" = some out ∧
      out.width = 1280 ∧ out.height = 720 :=
  ⟨rfl, resize_image_to_match_dimensions ⟨"RGB", 3, 5, []⟩ "1280x720" 1280 720 rfl⟩

/-- C7 (amended): when the source image's mode is `RGBA`, the submission
image is composited onto an opaque white `RGB` background, so the encoded
result carries no alpha channel. -/
theorem resize_image_to_match_flattens_rgba (img : PILImage) (ts : String)
    (w h : Nat) (hp : parse_size ts = some (w, h)) (hm : img.mode = "RGBA") :
    ∃ out, resize_image_to_match img ts = some out ∧
      out.mode = "RGB" ∧ hasAlpha out.mode = false := by
  simp only [resize_image_to_match, hp]
  rw [if_pos (show (img.resize w h).mode = "RGBA" from hm)]
  exact ⟨_, rfl, rfl, rfl⟩

/-- Witness for the amended C7 at a concrete RGBA source. -/
theorem resize_image_to_match_flattens_rgba_witness :
    parse_size "1280x720" = some (1280, 720) ∧
    (⟨"RGBA", 6, 6, []⟩ : PILImage).mode = "RGBA" ∧
    ∃ out, resize_image_to_match ⟨"RGBA", 6, 6, []⟩ "1280x720" = some out ∧
      out.mode = "RGB" ∧ hasAlpha out.mode = false :=
  ⟨rfl, rfl,
    resize_image_to_match_flattens_rgba ⟨"RGBA", 6, 6, []⟩ "1280x720" 1280 720 rfl rfl⟩

/-- Counterexample to C7 as stated: a greyscale-plus-alpha (`LA`) source has
an alpha channel, but the RGBA-only check leaves it untouched, so the
encoded submission image still carries alpha. -/
theorem resize_image_to_match_la_counterexample :
    hasAlpha (PILImage.mode ⟨"LA", 5, 3, []⟩) = true ∧
    resize_image_to_match ⟨"LA", 5, 3, []⟩ "4x4" = some ⟨"LA", 4, 4, []⟩ ∧
    hasAlpha (PILImage.mode ⟨"LA", 4, 4, []⟩) = true := by
  refine ⟨rfl, ?_, rfl⟩
  rfl

/-! ## Theorems: sprite-sheet composer (claims C3, C8) -/

/-- `(base.paste img pos)` keeps the base's width. -/
theorem paste_width (base img : PILImage) (pos : Nat × Nat) :
    (base.paste img pos).width = base.width := rfl

/-- `(base.paste img pos)` keeps the base's height. -/
theorem paste_height (base img : PILImage) (pos : Nat × Nat) :
    (base.paste img pos).height = base.height := rfl

/-- `processFrame` always yields a cell-sized frame (width). -/
theorem processFrame_width (n : String) (fr : PILImage) :
    (processFrame n fr).width = FRAME_SIZE := by
  simp only [processFrame]
  split_ifs <;>
    simp [PILImage.paste, PILImage.convert, PILImage.resize, imageNew,
      resize_with_padding]

/-- `processFrame` always yields a cell-sized frame (height). -/
theorem processFrame_height (n : String) (fr : PILImage) :
    (processFrame n fr).height = FRAME_SIZE := by
  simp only [processFrame]
  split_ifs <;>
    simp [PILImage.paste, PILImage.convert, PILImage.resize, imageNew,
      resize_with_padding]

/-- A fold preserves any invariant its step preserves. -/
theorem foldl_preserves {α β : Type} (P : β → Prop) (op : β → α → β)
    (hop : ∀ b a, P b → P (op b a)) :
    ∀ (l : List α) (b : β), P b → P (l.foldl op b) := by
  intro l
  induction l with
  | nil => exact fun b hb => hb
  | cons a as ih => exact fun b hb => ih (op b a) (hop b a hb)

/-- The sheet invariant: fixed dimensions, and every paste so far placed a
`FRAME_SIZE`-square cell at a multiple-of-`FRAME_SIZE` position. -/
def sheetInv (w h : Nat) (sheet : PILImage) : Prop :=
  sheet.width = w ∧ sheet.height = h ∧
  ∀ e ∈ sheet.pastes, FRAME_SIZE ∣ e.1 ∧ FRAME_SIZE ∣ e.2.1 ∧
    e.2.2.1 = FRAME_SIZE ∧ e.2.2.2 = FRAME_SIZE

/-- One inner-loop step preserves the sheet invariant. -/
theorem pasteFrame_inv (w h row : Nat) (name : String) (sheet : PILImage)
    (cf : Nat × PILImage) (hs : sheetInv w h sheet) :
    sheetInv w h (pasteFrame row name sheet cf) := by
  obtain ⟨h1, h2, h3⟩ := hs
  refine ⟨h1, h2, ?_⟩
  intro e he
  simp only [pasteFrame, PILImage.paste, List.mem_append, List.mem_singleton] at he
  rcases he with he | he
  · exact h3 e he
  · subst he
    exact ⟨dvd_mul_left _ _, dvd_mul_left _ _,
      processFrame_width name cf.2, processFrame_height name cf.2⟩

/-- One outer-loop step (a whole row) preserves the sheet invariant. -/
theorem pasteRow_inv (w h : Nat) (sheet : PILImage)
    (rf : Nat × String × List PILImage) (hs : sheetInv w h sheet) :
    sheetInv w h (pasteRow sheet rf) := by
  rw [pasteRow]
  exact foldl_preserves (sheetInv w h) (pasteFrame rf.1 rf.2.1)
    (fun b a hb => pasteFrame_inv w h rf.1 rf.2.1 b a hb) _ sheet hs

/-- The initial accumulator is below every fold of `Nat.max`. -/
theorem init_le_foldl_max (l : List Nat) (a : Nat) : a ≤ l.foldl Nat.max a := by
  induction l generalizing a with
  | nil => exact Nat.le_refl a
  | cons y ys ih => exact Nat.le_trans (Nat.le_max_left a y) (ih (Nat.max a y))

/-- Every list element is below the fold of `Nat.max`. -/
theorem le_foldl_max (l : List Nat) : ∀ a x, x ∈ l → x ≤ l.foldl Nat.max a := by
  induction l with
  | nil => intro a x hx; cases hx
  | cons y ys ih =>
    intro a x hx
    rcases List.mem_cons.mp hx with h | h
    · subst h
      exact Nat.le_trans (Nat.le_max_right a x) (init_le_foldl_max ys _)
    · exact ih _ x h

/-- The fold of `Nat.max` over an all-zero list is zero. -/
theorem foldl_max_zero (l : List Nat) (h : ∀ x ∈ l, x = 0) :
    l.foldl Nat.max 0 = 0 := by
  induction l with
  | nil => rfl
  | cons y ys ih =>
    have hy : y = 0 := h y (List.mem_cons_self y ys)
    show ys.foldl Nat.max (Nat.max 0 y) = 0
    have hm : Nat.max 0 y = 0 := by rw [hy]; decide
    rw [hm]
    exact ih (fun x hx => h x (List.mem_cons_of_mem y hx))

/-- C3: for every non-empty input in which some animation set has at least
one frame, the composer succeeds and the sheet's dimensions are exactly
`(max_frames * FRAME_SIZE, number-of-sets * FRAME_SIZE)`; moreover the cell
size is uniform: every paste on the sheet places a `FRAME_SIZE`-square cell
at a position that is a multiple of `FRAME_SIZE` on both axes. -/
theorem composeSpritesheet_dimensions (folders : List (String × List PILImage))
    (hne : folders ≠ []) (hfr : ∃ f ∈ folders, f.2 ≠ []) :
    ∃ sheet, composeSpritesheet folders = Except.ok sheet ∧
      sheet.width = max_frames folders * FRAME_SIZE ∧
      sheet.height = folders.length * FRAME_SIZE ∧
      ∀ e ∈ sheet.pastes, FRAME_SIZE ∣ e.1 ∧ FRAME_SIZE ∣ e.2.1 ∧
        e.2.2.1 = FRAME_SIZE ∧ e.2.2.2 = FRAME_SIZE := by
  have hmf : max_frames folders ≠ 0 := by
    obtain ⟨f, hf, hnil⟩ := hfr
    have h1 : f.2.length ∈ folders.map (fun g => g.2.length) :=
      List.mem_map_of_mem _ hf
    have h2 := le_foldl_max (folders.map (fun g => g.2.length)) 0 f.2.length h1
    have h3 : 0 < f.2.length := List.length_pos.mpr hnil
    rw [max_frames]
    omega
  rw [composeSpritesheet, if_neg hne, if_neg hmf]
  have hinv : sheetInv (FRAME_SIZE * max_frames folders)
      (FRAME_SIZE * folders.length)
      (folders.enum.foldl pasteRow
        (imageNew "RGB" (FRAME_SIZE * max_frames folders)
          (FRAME_SIZE * folders.length) BACKGROUND_COLOR)) :=
    foldl_preserves _ pasteRow
      (fun b a hb => pasteRow_inv _ _ b a hb) folders.enum _
      ⟨rfl, rfl, fun e he => absurd he (List.not_mem_nil e)⟩
  obtain ⟨h1, h2, h3⟩ := hinv
  exact ⟨_, rfl, by rw [h1, Nat.mul_comm], by rw [h2, Nat.mul_comm], h3⟩

/-- Witness for C3 at a concrete two-set input (2 and 1 frames). -/
theorem composeSpritesheet_dimensions_witness :
    sampleFolders ≠ [] ∧
    ∃ sheet, composeSpritesheet sampleFolders = Except.ok sheet ∧
      sheet.width = max_frames sampleFolders * FRAME_SIZE ∧
      sheet.height = sampleFolders.length * FRAME_SIZE ∧
      ∀ e ∈ sheet.pastes, FRAME_SIZE ∣ e.1 ∧ FRAME_SIZE ∣ e.2.1 ∧
        e.2.2.1 = FRAME_SIZE ∧ e.2.2.2 = FRAME_SIZE :=
  ⟨by decide, composeSpritesheet_dimensions sampleFolders (by decide)
    ⟨("idle", [⟨"RGB", 64, 64, []⟩, ⟨"RGBA", 64, 64, []⟩]), by decide, by decide⟩⟩

/-- C8: when there are no animation sets, or every set is empty, the
composer takes an early return: nothing is composed, no file is written,
and the corresponding nothing-to-do message is reported. -/
theorem composeSpritesheet_nothing_to_do (folders : List (String × List PILImage))
    (h : folders = [] ∨ ∀ f ∈ folders, f.2 = []) :
    composeSpritesheet folders =
        Except.error "No animation folders found in output/sprite_frames" ∨
    composeSpritesheet folders =
        Except.error "No frames found in any animation folder" := by
  by_cases hne : folders = []
  · left
    rw [composeSpritesheet, if_pos hne]
  · right
    have hall : ∀ f ∈ folders, f.2 = [] := by
      rcases h with h | h
      · exact absurd h hne
      · exact h
    have hmf : max_frames folders = 0 := by
      rw [max_frames]
      apply foldl_max_zero
      intro x hx
      obtain ⟨f, hf, hfx⟩ := List.mem_map.mp hx
      have hlen : f.2.length = x := hfx
      rw [hall f hf] at hlen
      simpa using hlen.symm
    rw [composeSpritesheet, if_neg hne, if_pos hmf]

/-- Witness for C8 at the empty input. -/
theorem composeSpritesheet_nothing_to_do_witness :
    composeSpritesheet [] =
        Except.error "No animation folders found in output/sprite_frames" ∨
    composeSpritesheet [] =
        Except.error "No frames found in any animation folder" :=
  composeSpritesheet_nothing_to_do [] (Or.inl rfl)

/-! ## Theorems: artifact downloader (claims C4, C9) -/

/-- C4: each variant is downloaded and written independently.  Whichever
one of the three variants raises on download while the others succeed, the
error is caught, exactly that variant is skipped (reported for it only),
and each remaining variant's file is still written to disk with its
downloaded bytes.  In particular, with `video` failing, the spritesheet and
thumbnail files are still written (see the witness). -/
theorem download_outputs_variant_independent
    (download : String → Except String Bytes) (vid pn : String)
    (failed err : String)
    (hmem : failed ∈ ["spritesheet", "thumbnail", "video"])
    (hfail : download failed = Except.error err)
    (hok : ∀ v, v ≠ failed → ∃ d, download v = Except.ok d) :
    (download_outputs download vid pn).skipped = [failed] ∧
    (∀ v fp, (v, fp) ∈ variantsMap (OUTPUT_DIR ++ "/" ++ pn ++ "_" ++ vid) →
      v ≠ failed →
      ∃ d, download v = Except.ok d ∧
        (fp, d) ∈ (download_outputs download vid pn).written) := by
  fin_cases hmem
  · obtain ⟨dt, hdt⟩ := hok "thumbnail" (by decide)
    obtain ⟨dv, hdv⟩ := hok "video" (by decide)
    refine ⟨by simp [download_outputs, variantsMap, hfail, hdt, hdv], ?_⟩
    intro v fp hvf hne
    simp only [variantsMap, List.mem_cons, List.not_mem_nil, or_false,
      Prod.mk.injEq] at hvf
    rcases hvf with ⟨rfl, rfl⟩ | ⟨rfl, rfl⟩ | ⟨rfl, rfl⟩
    · exact absurd rfl hne
    · exact ⟨dt, hdt, by simp [download_outputs, variantsMap, hfail, hdt, hdv]⟩
    · exact ⟨dv, hdv, by simp [download_outputs, variantsMap, hfail, hdt, hdv]⟩
  · obtain ⟨ds, hds⟩ := hok "spritesheet" (by decide)
    obtain ⟨dv, hdv⟩ := hok "video" (by decide)
    refine ⟨by simp [download_outputs, variantsMap, hfail, hds, hdv], ?_⟩
    intro v fp hvf hne
    simp only [variantsMap, List.mem_cons, List.not_mem_nil, or_false,
      Prod.mk.injEq] at hvf
    rcases hvf with ⟨rfl, rfl⟩ | ⟨rfl, rfl⟩ | ⟨rfl, rfl⟩
    · exact ⟨ds, hds, by simp [download_outputs, variantsMap, hfail, hds, hdv]⟩
    · exact absurd rfl hne
    · exact ⟨dv, hdv, by simp [download_outputs, variantsMap, hfail, hds, hdv]⟩
  · obtain ⟨ds, hds⟩ := hok "spritesheet" (by decide)
    obtain ⟨dt, hdt⟩ := hok "thumbnail" (by decide)
    refine ⟨by simp [download_outputs, variantsMap, hfail, hds, hdt], ?_⟩
    intro v fp hvf hne
    simp only [variantsMap, List.mem_cons, List.not_mem_nil, or_false,
      Prod.mk.injEq] at hvf
    rcases hvf with ⟨rfl, rfl⟩ | ⟨rfl, rfl⟩ | ⟨rfl, rfl⟩
    · exact ⟨ds, hds, by simp [download_outputs, variantsMap, hfail, hds, hdt]⟩
    · exact ⟨dt, hdt, by simp [download_outputs, variantsMap, hfail, hds, hdt]⟩
    · exact absurd rfl hne

/-- Witness for C4, instantiating the failing variant to `video` at a
concrete download service: only `video` is skipped and the spritesheet and
thumbnail files are still written. -/
theorem download_outputs_variant_independent_witness :
    (download_outputs dlVideoAbsent "vid" "p").skipped = ["video"] ∧
    (∀ v fp, (v, fp) ∈ variantsMap (OUTPUT_DIR ++ "/" ++ "p" ++ "_" ++ "vid") →
      v ≠ "video" →
      ∃ d, dlVideoAbsent v = Except.ok d ∧
        (fp, d) ∈ (download_outputs dlVideoAbsent "vid" "p").written) :=
  download_outputs_variant_independent dlVideoAbsent "vid" "p" "video"
    "video not generated" (by decide) rfl
    (fun v hv => ⟨[7], by simp [dlVideoAbsent, hv]⟩)

/-- C9 (amended): `download_outputs` returns the full intended
variant-to-path mapping of all three variants unconditionally, whatever the
download service did; failures are not flagged in the return value (they
are only reported in log output), so the return value does not indicate
which files were actually written. -/
theorem download_outputs_returns_full_mapping
    (download : String → Except String Bytes) (vid pn : String) :
    (download_outputs download vid pn).returned =
      variantsMap (OUTPUT_DIR ++ "/" ++ pn ++ "_" ++ vid) := rfl

/-- Counterexample to C9 as stated: when the `video` download fails, the
returned mapping still contains the `video` entry (so it is not the
successes-only mapping — the video file was never written), and it is
identical to the mapping returned when every variant succeeds (so no entry
is flagged as a failure). -/
theorem download_outputs_return_counterexample :
    ("video", "output/p_vid.mp4") ∈ (download_outputs dlVideoAbsent "vid" "p").returned ∧
    (∀ f ∈ (download_outputs dlVideoAbsent "vid" "p").written,
      f.1 ≠ "output/p_vid.mp4") ∧
    (download_outputs dlVideoAbsent "vid" "p").returned =
      (download_outputs dlAllOk "vid" "p").returned := by
  refine ⟨by decide, by decide, rfl⟩
